import Mathlib

/-!
Verification of the flocker EBS block-device layer: the volume state model,
the state-transition poller `_wait_for_volume_state_change`, the device
allocator `_next_device`, and the cluster-scoped facade operations.

The implementation module `flocker/node/agents/ebs.py` is not part of the
source tree here; only its functional test suite
(`flocker/node/agents/functional/test_ebs.py`) is.  The definitions below are
therefore modelled from the specification of that module, constrained by the
behaviour the test suite pins down (state-table values, the exception type
raised on each failure, the device-allocation example).
-/

/-- Modelled from the spec: the provider-reported lifecycle statuses
(`VolumeStates` in the missing `ebs.py`).  The seven values are the ones the
state-flow table and the tests use: the empty status stands for "volume
absent" (the DESTROY end condition, asserted as status `u''` by
`_assert_success`). -/
inductive VolumeStates where
  | empty
  | creating
  | available
  | attaching
  | inUse
  | detaching
  | deleting
deriving DecidableEq, Repr

/-- Modelled from the spec: the four lifecycle operations
(`VolumeOperations` in the missing `ebs.py`). -/
inductive VolumeOperations where
  | create
  | destroy
  | attach
  | detach
deriving DecidableEq, Repr

/-- Modelled from the spec: the `{device, computeInstanceId}` pair describing
where a volume is attached (boto `AttachmentSet` as used by `ebs.py`). -/
structure AttachmentSet where
  device : String
  instance_id : String
deriving DecidableEq, Repr

/-- Modelled from the spec: the volume record (boto `Volume` as used by
`ebs.py`): provider id, capacity, zone, provider-reported status, and the
optional attach data, absent when fully detached. -/
structure EbsVolume where
  id : String
  size : Nat
  zone : String
  status : VolumeStates
  attach_data : Option AttachmentSet
deriving DecidableEq, Repr

/-- Modelled from the spec: the per-operation contract
`{startState, transientState, endState}` plus whether the operation requires
attach data at the end state (`VolumeStateFlow` in the missing `ebs.py`). -/
structure VolumeStateFlow where
  start_state : VolumeStates
  transient_state : VolumeStates
  end_state : VolumeStates
  sets_attach : Bool
deriving DecidableEq, Repr

/-- Modelled from the spec: the static table mapping each operation to its
state flow (`VolumeStateTable` in the missing `ebs.py`), following the table
in the spec: CREATE creating/creating/available, DESTROY
available/deleting/absent, ATTACH available/attaching/in-use (attach data
required at end), DETACH in-use/detaching/available. -/
def volume_state_table : VolumeOperations → VolumeStateFlow
  | .create => ⟨.creating, .creating, .available, false⟩
  | .destroy => ⟨.available, .deleting, .empty, false⟩
  | .attach => ⟨.available, .attaching, .inUse, true⟩
  | .detach => ⟨.inUse, .detaching, .available, false⟩

/-- All provider-reported statuses, as a list (the enumerants of
`VolumeStates`). -/
def allVolumeStates : List VolumeStates :=
  [.empty, .creating, .available, .attaching, .inUse, .detaching, .deleting]

/-- The three declared states of one operation's flow. -/
def flowStates (op : VolumeOperations) : List VolumeStates :=
  [(volume_state_table op).start_state,
   (volume_state_table op).transient_state,
   (volume_state_table op).end_state]

/-- The union of the declared flow states over all four operations. -/
def flowUnionStates : List VolumeStates :=
  flowStates .create ++ flowStates .destroy ++ flowStates .attach ++
    flowStates .detach

/-- Modelled from the spec: validation of the attach-data shape required at an
operation's end state.  Only ATTACH requires attach data to be present, with
non-empty device and instance id; the tests show that operations whose end
state does not require attach data succeed regardless of its contents
(`_assert_success` for CREATE and DESTROY passes populated attach data). -/
def attachDataOk (op : VolumeOperations) (v : EbsVolume) : Bool :=
  if (volume_state_table op).sets_attach then
    match v.attach_data with
    | none => false
    | some a => decide (a.device ≠ "") && decide (a.instance_id ≠ "")
  else
    true

/-- Modelled from the spec: the failure outcomes of the poller, per the error
taxonomy: a fatal/logic error (volume not in the operation's start state), an
invalid-state error (provider reports a status outside the declared flow), and
a timeout-class error (deadline exceeded, or end state reached without the
required attach data). -/
inductive PollError where
  | fatal
  | invalidState (s : VolumeStates)
  | timedOut
deriving DecidableEq, Repr

/-- Modelled from the spec and the test suite: the Python exception class each
poller failure is raised as.  The tests (`_assert_raises_invalid_state`)
assert `TimeoutException` for an out-of-flow status, for a volume stuck in the
transient state, and for an end state with missing or malformed attach data;
the fatal/logic error is a distinct caller-error class. -/
inductive ExceptionClass where
  | timeoutException
  | callerError
deriving DecidableEq, Repr

/-- Modelled from the spec and the test suite: the exception class raised for
each poller failure. -/
def raisedExceptionClass : PollError → ExceptionClass
  | .fatal => .callerError
  | .invalidState _ => .timeoutException
  | .timedOut => .timeoutException

/-- Modelled from the spec: the poll loop of `_wait_for_volume_state_change`.
Time is discrete: one recursive step is one polling interval, `fuel` is the
number of intervals remaining before the deadline, and `refresh n` is the
volume as observed by the n-th refresh call.  Each iteration first checks the
deadline (so a pre-expired deadline fails fast without a provider call), then
refreshes and inspects the status: the end state returns success once the
required attach data is validated (a malformed attach data is a timeout-class
failure), the transient and start states continue polling, and any other
status fails immediately with an invalid-state error. -/
def waitLoop (op : VolumeOperations) (refresh : Nat → EbsVolume) :
    Nat → Nat → Except PollError EbsVolume
  | 0, _ => .error .timedOut
  | fuel + 1, n =>
    if (refresh n).status = (volume_state_table op).end_state then
      if attachDataOk op (refresh n) then .ok (refresh n)
      else .error .timedOut
    else if (refresh n).status = (volume_state_table op).transient_state then
      waitLoop op refresh fuel (n + 1)
    else if (refresh n).status = (volume_state_table op).start_state then
      waitLoop op refresh fuel (n + 1)
    else
      .error (.invalidState (refresh n).status)

/-- Modelled from the spec: `_wait_for_volume_state_change(operation, volume,
update, timeout)` from the missing `ebs.py`.  It first validates that the
volume is in the operation's declared start state (a caller/logic error
otherwise, surfaced immediately without polling), then runs the bounded poll
loop with `timeout` polling intervals. -/
def _wait_for_volume_state_change (op : VolumeOperations) (volume : EbsVolume)
    (refresh : Nat → EbsVolume) (timeout : Nat) : Except PollError EbsVolume :=
  if volume.status = (volume_state_table op).start_state then
    waitLoop op refresh timeout 0
  else
    .error .fatal

/-- Modelled from the spec: the ordered range of device paths the provider
allows for attachment, the standard EBS suffix range
`/dev/sdf` .. `/dev/sdp`, listed in lexicographic order. -/
def allowedDevicePaths : List String :=
  ["/dev/sdf", "/dev/sdg", "/dev/sdh", "/dev/sdi", "/dev/sdj", "/dev/sdk",
   "/dev/sdl", "/dev/sdm", "/dev/sdn", "/dev/sdo", "/dev/sdp"]

/-- The device paths the provider reports as attached to the given compute
instance among the given volumes. -/
def providerDevices (instance_id : String) (volumes : List EbsVolume) :
    List String :=
  volumes.filterMap fun v =>
    v.attach_data.bind fun a =>
      if a.instance_id = instance_id then some a.device else none

/-- The union guarded against: provider-reported in-use paths on the instance
together with the locally-reserved paths. -/
def deviceUnion (instance_id : String) (volumes : List EbsVolume)
    (devices_in_use : List String) : List String :=
  providerDevices instance_id volumes ++ devices_in_use

/-- Modelled from the spec: `_next_device(instance_id, volumes,
devices_in_use)` of the missing `EBSBlockDeviceAPI`.  It unions the devices
the provider reports as attached to the instance with the locally-reserved
set, and returns the first allowed path not in that union, or `none` when the
range is exhausted (the capacity error). -/
def _next_device (instance_id : String) (volumes : List EbsVolume)
    (devices_in_use : List String) : Option String :=
  allowedDevicePaths.find? fun p =>
    decide (p ∉ deviceUnion instance_id volumes devices_in_use)

/-- Modelled from the spec: one volume as recorded in the provider account,
carrying the cluster-ownership tag written at creation time (`none` for a
volume created directly against the provider, untagged). -/
structure ProviderVolume where
  vid : Nat
  clusterTag : Option String
  datasetTag : Option String
  vsize : Nat
deriving DecidableEq, Repr

/-- Modelled from the spec: one creation event in the shared provider
account: a facade `createVolume` call by some cluster (which tags the volume
with that cluster's id and the dataset id), or a raw provider-level creation
that leaves the volume untagged. -/
inductive CreationEvent where
  | flockerCreate (cluster dataset : String) (size : Nat)
  | rawCreate (size : Nat)
deriving DecidableEq, Repr

/-- Modelled from the spec: the effect of one creation event on the provider
account state (the list of volumes visible in the account, newest last). -/
def applyEvent (s : List ProviderVolume) : CreationEvent → List ProviderVolume
  | .flockerCreate cluster dataset size =>
      s ++ [⟨s.length, some cluster, some dataset, size⟩]
  | .rawCreate size =>
      s ++ [⟨s.length, none, none, size⟩]

/-- The provider account state after an interleaving of creation events. -/
def runEvents (es : List CreationEvent) : List ProviderVolume :=
  es.foldl applyEvent []

/-- Modelled from the spec: `list_volumes()` of the missing
`EBSBlockDeviceAPI`, called on behalf of the given cluster: it returns the
volumes whose ownership tag marks them as owned by that cluster, by tag
inspection alone. -/
def list_volumes (cluster : String) (s : List ProviderVolume) :
    List ProviderVolume :=
  s.filter fun v => decide (v.clusterTag = some cluster)

/-- Modelled from the spec: the facade's error taxonomy as seen by callers of
`create_volume`: the provider's own validation rejection (code and message
preserved), or a poller failure. -/
inductive FacadeError where
  | providerError (code message : String)
  | pollFailure (e : PollError)
deriving DecidableEq, Repr

/-- Modelled from the spec: the provider's create call.  It rejects a
non-positive size outright with its validation error (code and message), and
otherwise returns a fresh volume in the `creating` status. -/
def providerCreateVolume (size : Nat) (zone : String) :
    Except (String × String) EbsVolume :=
  if size = 0 then
    .error ("InvalidParameterValue", "Volume size must be positive")
  else
    .ok ⟨"vol-new", size, zone, .creating, none⟩

/-- Modelled from the spec: `create_volume(dataset_id, size)` of the missing
`EBSBlockDeviceAPI`: it issues the provider create call (re-raising the
provider's validation error with its code and message preserved), then awaits
the CREATE transition with the poller. -/
def create_volume (size : Nat) (zone : String) (refresh : Nat → EbsVolume)
    (timeout : Nat) : Except FacadeError EbsVolume :=
  match providerCreateVolume size zone with
  | .error (code, message) => .error (.providerError code message)
  | .ok v =>
    match _wait_for_volume_state_change .create v refresh timeout with
    | .error e => .error (.pollFailure e)
    | .ok w => .ok w

/-- The template volume the tests build for an operation: a fixed id, size,
zone, no attach data, and the operation's declared start state
(`_create_template_ebs_volume` in the test suite). -/
def templateVolume (op : VolumeOperations) : EbsVolume :=
  ⟨"vol-9c48a689", 1, "us-west-2b", (volume_state_table op).start_state, none⟩

/-- The well-formed attach data the tests use on a successful attach
(`ATTACH_SUCCESS` in the test suite). -/
def goodAttachData : AttachmentSet := ⟨"/dev/sdf", "i-xyz"⟩

/-- The volume as observed once an operation has reached its declared end
state, with well-formed attach data exactly when the operation requires it. -/
def endVolume (op : VolumeOperations) : EbsVolume :=
  { templateVolume op with
    status := (volume_state_table op).end_state,
    attach_data := if op = .attach then some goodAttachData else none }

/-- A sample interleaving of creations in one provider account: cluster A
creates a volume, someone creates an untagged volume directly against the
provider, cluster B creates a volume. -/
def demoEvents : List CreationEvent :=
  [.flockerCreate "A" "d1" 5, .rawCreate 3, .flockerCreate "B" "d2" 5]

/-- The volume cluster A creates first in `demoEvents`. -/
def demoVolumeA : ProviderVolume := ⟨0, some "A", some "d1", 5⟩

/-- A volume observation whose status (`in-use`) is outside the CREATE flow. -/
def outOfFlowVolume : EbsVolume :=
  ⟨"vol-9c48a689", 1, "us-west-2b", .inUse, none⟩

/-- A volume observation stuck in the DESTROY transient state (`deleting`). -/
def stuckDeletingVolume : EbsVolume :=
  ⟨"vol-9c48a689", 1, "us-west-2b", .deleting, none⟩

/-- A volume observation at the ATTACH end status with malformed attach data
(empty device field, as `MISSING_DEVICE` in the test suite). -/
def badAttachVolume : EbsVolume :=
  ⟨"vol-9c48a689", 1, "us-west-2b", .inUse, some ⟨"", "i-xyz"⟩⟩

theorem waitLoop_ne_fatal (op : VolumeOperations) (refresh : Nat → EbsVolume) :
    ∀ fuel n, waitLoop op refresh fuel n ≠ .error .fatal := by
  intro fuel
  induction fuel with
  | zero =>
    intro n h
    simp [waitLoop] at h
  | succ m ih =>
    intro n h
    simp only [waitLoop] at h
    split at h
    · split at h <;> simp_all
    · split at h
      · exact ih (n + 1) h
      · split at h
        · exact ih (n + 1) h
        · simp_all

theorem waitLoop_stuck (op : VolumeOperations) (refresh : Nat → EbsVolume)
    (htr : ∀ k, (refresh k).status = (volume_state_table op).transient_state) :
    ∀ fuel n, waitLoop op refresh fuel n = .error .timedOut := by
  intro fuel
  induction fuel with
  | zero => intro n; rfl
  | succ m ih =>
    intro n
    simp only [waitLoop]
    rw [htr n]
    cases op <;> simp [volume_state_table, ih (n + 1)]

theorem waitLoop_reach (op : VolumeOperations) (refresh : Nat → EbsVolume)
    (hne : (volume_state_table op).transient_state ≠
      (volume_state_table op).end_state) :
    ∀ k fuel n, k < fuel →
    (∀ j, j < k →
      (refresh (n + j)).status = (volume_state_table op).transient_state) →
    (refresh (n + k)).status = (volume_state_table op).end_state →
    waitLoop op refresh fuel n =
      (if attachDataOk op (refresh (n + k)) then .ok (refresh (n + k))
       else .error .timedOut) := by
  intro k
  induction k with
  | zero =>
    intro fuel n hk _ hend
    obtain ⟨m, rfl⟩ : ∃ m, fuel = m + 1 := ⟨fuel - 1, by omega⟩
    simp only [Nat.add_zero] at hend ⊢
    simp only [waitLoop]
    rw [if_pos hend]
  | succ k ih =>
    intro fuel n hk htr hend
    obtain ⟨m, rfl⟩ : ∃ m, fuel = m + 1 := ⟨fuel - 1, by omega⟩
    have h0 : (refresh n).status = (volume_state_table op).transient_state := by
      simpa using htr 0 (by omega)
    have harith : n + 1 + k = n + (k + 1) := by omega
    have hrec := ih m (n + 1) (by omega)
      (fun j hj => by
        have hh := htr (j + 1) (by omega)
        have hj2 : n + (j + 1) = n + 1 + j := by omega
        rwa [hj2] at hh)
      (by rwa [harith])
    simp only [waitLoop]
    rw [if_neg (by rw [h0]; exact hne), if_pos h0, hrec, harith]

theorem find_first_min (p : String → Bool) :
    ∀ (l : List String), l.Pairwise (· ≤ ·) →
    ∀ d, l.find? p = some d → ∀ x ∈ l, p x = true → d ≤ x := by
  intro l
  induction l with
  | nil =>
    intro _ d h
    simp at h
  | cons a t ih =>
    intro hp d h x hx hpx
    by_cases ha : p a = true
    · rw [List.find?_cons_of_pos _ ha] at h
      injection h with h
      subst h
      rcases List.mem_cons.mp hx with rfl | hxt
      · exact le_refl x
      · exact (List.pairwise_cons.mp hp).1 x hxt
    · rw [List.find?_cons_of_neg _ (by simpa using ha)] at h
      rcases List.mem_cons.mp hx with rfl | hxt
      · exact absurd hpx ha
      · exact ih (List.pairwise_cons.mp hp).2 d h x hxt hpx

/-- C1: For every operation in {CREATE, DESTROY, ATTACH, DETACH}, if the
refresh callback immediately sets the volume's status to that operation's
declared end state (and, for ATTACH, well-formed attach data with non-empty
device and instance id), `_wait_for_volume_state_change` returns success
without exceeding one polling interval (any deadline of at least one interval
suffices, one refresh included), leaving the volume at the end state: status
`available` after CREATE and DETACH, `in-use` with the attach data after
ATTACH, and the volume-absent end state after DESTROY. -/
theorem wait_success_one_interval (op : VolumeOperations) (v : EbsVolume)
    (refresh : Nat → EbsVolume) (timeout : Nat)
    (hstart : v.status = (volume_state_table op).start_state)
    (ht : 1 ≤ timeout)
    (hend : (refresh 0).status = (volume_state_table op).end_state)
    (hdata : attachDataOk op (refresh 0) = true) :
    _wait_for_volume_state_change op v refresh timeout = .ok (refresh 0) ∧
    (volume_state_table .create).end_state = .available ∧
    (volume_state_table .detach).end_state = .available ∧
    (volume_state_table .attach).end_state = .inUse ∧
    (volume_state_table .destroy).end_state = .empty := by
  refine ⟨?_, rfl, rfl, rfl, rfl⟩
  obtain ⟨m, rfl⟩ : ∃ m, timeout = m + 1 := ⟨timeout - 1, by omega⟩
  unfold _wait_for_volume_state_change
  rw [if_pos hstart]
  simp only [waitLoop]
  rw [if_pos hend, if_pos hdata]

theorem wait_success_one_interval_witness :
    _wait_for_volume_state_change VolumeOperations.attach
        (templateVolume VolumeOperations.attach)
        (fun _ => endVolume VolumeOperations.attach) 1 =
      Except.ok (endVolume VolumeOperations.attach) ∧
    (volume_state_table VolumeOperations.create).end_state =
      VolumeStates.available ∧
    (volume_state_table VolumeOperations.detach).end_state =
      VolumeStates.available ∧
    (volume_state_table VolumeOperations.attach).end_state =
      VolumeStates.inUse ∧
    (volume_state_table VolumeOperations.destroy).end_state =
      VolumeStates.empty :=
  wait_success_one_interval VolumeOperations.attach
    (templateVolume VolumeOperations.attach)
    (fun _ => endVolume VolumeOperations.attach) 1 rfl (by omega) rfl
    (by decide)

/-- C2: If the refresh callback reports a volume status outside the
operation's declared `{startState, transientState, endState}` set,
`_wait_for_volume_state_change` fails at once with the invalid-state error
carrying that status, for every deadline of at least one polling interval
(so even when the configured deadline has not yet elapsed), and this failure
is not retried: only the first refresh observation matters. -/
theorem wait_invalid_state_immediate (op : VolumeOperations) (v : EbsVolume)
    (refresh : Nat → EbsVolume) (timeout : Nat) (s : VolumeStates)
    (hstart : v.status = (volume_state_table op).start_state)
    (ht : 1 ≤ timeout)
    (h0 : (refresh 0).status = s)
    (hs : s ∉ flowStates op) :
    _wait_for_volume_state_change op v refresh timeout =
      .error (.invalidState s) := by
  simp only [flowStates, List.mem_cons, List.not_mem_nil, or_false] at hs
  push_neg at hs
  obtain ⟨hs1, hs2, hs3⟩ := hs
  obtain ⟨m, rfl⟩ : ∃ m, timeout = m + 1 := ⟨timeout - 1, by omega⟩
  unfold _wait_for_volume_state_change
  rw [if_pos hstart]
  simp only [waitLoop]
  rw [h0, if_neg hs3, if_neg hs2, if_neg hs1]

theorem wait_invalid_state_immediate_witness :
    _wait_for_volume_state_change VolumeOperations.create
        (templateVolume VolumeOperations.create) (fun _ => outOfFlowVolume)
        5 =
      Except.error (PollError.invalidState VolumeStates.inUse) :=
  wait_invalid_state_immediate VolumeOperations.create
    (templateVolume VolumeOperations.create) (fun _ => outOfFlowVolume) 5
    VolumeStates.inUse rfl (by omega) rfl (by decide)

/-- C3: If the refresh callback always reports the operation's declared
transient state, `_wait_for_volume_state_change` fails with the timeout error
once the configured deadline of polling intervals is spent, and never fails
with an invalid-state error; this holds for all four operations. -/
theorem wait_stuck_transient_times_out (op : VolumeOperations)
    (v : EbsVolume) (refresh : Nat → EbsVolume) (timeout : Nat)
    (hstart : v.status = (volume_state_table op).start_state)
    (htr : ∀ k, (refresh k).status = (volume_state_table op).transient_state) :
    _wait_for_volume_state_change op v refresh timeout = .error .timedOut ∧
    ∀ s, _wait_for_volume_state_change op v refresh timeout ≠
      .error (.invalidState s) := by
  have h : _wait_for_volume_state_change op v refresh timeout =
      .error .timedOut := by
    unfold _wait_for_volume_state_change
    rw [if_pos hstart]
    exact waitLoop_stuck op refresh htr timeout 0
  refine ⟨h, fun s hcon => ?_⟩
  rw [h] at hcon
  simp at hcon

theorem wait_stuck_transient_times_out_witness :
    _wait_for_volume_state_change VolumeOperations.destroy
        (templateVolume VolumeOperations.destroy)
        (fun _ => stuckDeletingVolume) 5 =
      Except.error PollError.timedOut :=
  (wait_stuck_transient_times_out VolumeOperations.destroy
    (templateVolume VolumeOperations.destroy) (fun _ => stuckDeletingVolume)
    5 rfl (fun _ => rfl)).1

/-- C4: For the ATTACH operation, if the volume reaches the declared end
status `in-use` (after any number of transient observations within the
deadline) but its attach data is missing, or has an empty device field, or an
empty instance-id field, then `_wait_for_volume_state_change` fails with the
timeout-class error and never returns success. -/
theorem wait_attach_bad_data_never_succeeds (v : EbsVolume)
    (refresh : Nat → EbsVolume) (timeout k : Nat)
    (hstart : v.status = (volume_state_table .attach).start_state)
    (hk : k < timeout)
    (htr : ∀ n, n < k →
      (refresh n).status = (volume_state_table .attach).transient_state)
    (hend : (refresh k).status = (volume_state_table .attach).end_state)
    (hbad : (refresh k).attach_data = none ∨
      ∃ a, (refresh k).attach_data = some a ∧
        (a.device = "" ∨ a.instance_id = "")) :
    _wait_for_volume_state_change .attach v refresh timeout =
      .error .timedOut ∧
    ∀ w, _wait_for_volume_state_change .attach v refresh timeout ≠ .ok w := by
  have hdata : attachDataOk .attach (refresh k) = false := by
    rcases hbad with hnone | ⟨a, ha, hfield⟩
    · simp [attachDataOk, volume_state_table, hnone]
    · rcases hfield with h1 | h1 <;>
        simp [attachDataOk, volume_state_table, ha, h1]
  have h := waitLoop_reach .attach refresh (by decide) k timeout 0 hk
    (fun j hj => by simpa using htr j hj)
    (by simpa using hend)
  simp only [Nat.zero_add, hdata, Bool.false_eq_true, if_false] at h
  have hmain : _wait_for_volume_state_change .attach v refresh timeout =
      .error .timedOut := by
    unfold _wait_for_volume_state_change
    rw [if_pos hstart]
    exact h
  refine ⟨hmain, fun w hcon => ?_⟩
  rw [hmain] at hcon
  simp at hcon

theorem wait_attach_bad_data_never_succeeds_witness :
    _wait_for_volume_state_change VolumeOperations.attach
        (templateVolume VolumeOperations.attach)
        (fun _ => badAttachVolume) 5 =
      Except.error PollError.timedOut :=
  (wait_attach_bad_data_never_succeeds
    (templateVolume VolumeOperations.attach) (fun _ => badAttachVolume) 5 0
    rfl (by omega) (fun n hn => absurd hn (by omega)) rfl
    (Or.inr ⟨⟨"", "i-xyz"⟩, rfl, Or.inl rfl⟩)).1

theorem allowedDevicePaths_sorted : allowedDevicePaths.Pairwise (· ≤ ·) := by
  have h : (allowedDevicePaths.map String.toList).Pairwise (· < ·) := by
    decide
  rw [List.pairwise_map] at h
  exact h.imp fun hlt => le_of_lt (String.lt_iff_toList_lt.mpr hlt)

/-- C5: The device allocator `_next_device` never returns a device path
present in the union of the locally-reserved path set and the
provider-reported in-use path set, and returns the lexicographically first
allowed path not in that union; in particular, with reserved set
`{"/dev/sdf"}` and an empty provider in-use set it returns `"/dev/sdg"`. -/
theorem next_device_avoids_union (instance_id : String)
    (volumes : List EbsVolume) (devices_in_use : List String) (d : String)
    (h : _next_device instance_id volumes devices_in_use = some d) :
    d ∉ deviceUnion instance_id volumes devices_in_use ∧
    d ∈ allowedDevicePaths ∧
    (∀ p ∈ allowedDevicePaths,
      p ∉ deviceUnion instance_id volumes devices_in_use → d ≤ p) ∧
    _next_device "i-1" [] ["/dev/sdf"] = some "/dev/sdg" := by
  unfold _next_device at h
  refine ⟨?_, List.mem_of_find?_eq_some h, ?_, by decide⟩
  · have hd := List.find?_some h
    simpa using hd
  · intro p hp hpu
    exact find_first_min _ allowedDevicePaths allowedDevicePaths_sorted d h
      p hp (by simpa using hpu)

theorem next_device_avoids_union_witness :
    "/dev/sdg" ∉ deviceUnion "i-1" [] ["/dev/sdf"] ∧
    _next_device "i-1" [] ["/dev/sdf"] = some "/dev/sdg" :=
  ⟨(next_device_avoids_union "i-1" [] ["/dev/sdf"] "/dev/sdg" (by decide)).1,
   (next_device_avoids_union "i-1" [] ["/dev/sdf"] "/dev/sdg"
     (by decide)).2.2.2⟩

/-- C6: `list_volumes` called on behalf of cluster A never returns a volume
tagged as belonging to another cluster B or an untagged volume created
directly against the provider, and returns all volumes tagged for cluster A,
for every interleaving of volume creations across clusters in the same
provider account. -/
theorem list_volumes_cluster_isolation (es : List CreationEvent)
    (a : String) :
    (∀ v ∈ list_volumes a (runEvents es), v.clusterTag = some a) ∧
    (∀ v ∈ list_volumes a (runEvents es), ∀ b, b ≠ a →
      v.clusterTag ≠ some b) ∧
    (∀ v ∈ list_volumes a (runEvents es), v.clusterTag ≠ none) ∧
    (∀ v ∈ runEvents es, v.clusterTag = some a →
      v ∈ list_volumes a (runEvents es)) := by
  refine ⟨?_, ?_, ?_, ?_⟩
  · intro v hv
    simp only [list_volumes, List.mem_filter, decide_eq_true_eq] at hv
    exact hv.2
  · intro v hv b hb hcon
    simp only [list_volumes, List.mem_filter, decide_eq_true_eq] at hv
    rw [hv.2] at hcon
    exact hb (Option.some.inj hcon).symm
  · intro v hv hcon
    simp only [list_volumes, List.mem_filter, decide_eq_true_eq] at hv
    rw [hv.2] at hcon
    exact Option.noConfusion hcon
  · intro v hv htag
    simp only [list_volumes, List.mem_filter, decide_eq_true_eq]
    exact ⟨hv, htag⟩

theorem list_volumes_cluster_isolation_witness :
    demoVolumeA ∈ list_volumes "A" (runEvents demoEvents) ∧
    demoVolumeA.clusterTag = some "A" :=
  ⟨(list_volumes_cluster_isolation demoEvents "A").2.2.2 demoVolumeA
     (by decide) rfl,
   (list_volumes_cluster_isolation demoEvents "A").1 demoVolumeA (by decide)⟩

/-- C7: `create_volume` called with size 0 fails with the provider's
validation error, with the provider's code and message preserved, and not
with a timeout error or an invalid-state error (no poller failure at all). -/
theorem create_volume_size_zero_provider_error (zone : String)
    (refresh : Nat → EbsVolume) (timeout : Nat) :
    create_volume 0 zone refresh timeout =
      .error (.providerError "InvalidParameterValue"
        "Volume size must be positive") ∧
    (∀ e : PollError,
      create_volume 0 zone refresh timeout ≠ .error (.pollFailure e)) ∧
    (∀ size code message,
      providerCreateVolume size zone = .error (code, message) →
      create_volume size zone refresh timeout =
        .error (.providerError code message)) := by
  refine ⟨rfl, ?_, ?_⟩
  · intro e hcon
    simp [create_volume, providerCreateVolume] at hcon
  · intro size code message hpcv
    unfold create_volume
    rw [hpcv]

theorem create_volume_size_zero_witness :
    create_volume 0 "us-west-2b" (fun _ => endVolume VolumeOperations.create)
        5 =
      Except.error (FacadeError.providerError "InvalidParameterValue"
        "Volume size must be positive") :=
  (create_volume_size_zero_provider_error "us-west-2b"
    (fun _ => endVolume VolumeOperations.create) 5).1

/-- C8: If `_wait_for_volume_state_change` is invoked with a volume whose
status is not the operation's declared start state, it fails immediately with
the fatal/logic error, without retrying and without entering the refresh/poll
loop: the result is the same for every refresh callback and every deadline. -/
theorem wait_wrong_start_state_fatal (op : VolumeOperations) (v : EbsVolume)
    (refresh refresh2 : Nat → EbsVolume) (timeout timeout2 : Nat)
    (h : v.status ≠ (volume_state_table op).start_state) :
    _wait_for_volume_state_change op v refresh timeout = .error .fatal ∧
    _wait_for_volume_state_change op v refresh timeout =
      _wait_for_volume_state_change op v refresh2 timeout2 := by
  unfold _wait_for_volume_state_change
  rw [if_neg h, if_neg h]
  exact ⟨rfl, rfl⟩

theorem wait_wrong_start_state_fatal_witness :
    _wait_for_volume_state_change VolumeOperations.create outOfFlowVolume
        (fun _ => endVolume VolumeOperations.create) 5 =
      Except.error PollError.fatal :=
  (wait_wrong_start_state_fatal VolumeOperations.create outOfFlowVolume
    (fun _ => endVolume VolumeOperations.create) (fun _ => outOfFlowVolume)
    5 7 (by decide)).1

/-- C9 counterexample: the claimed invariant fails on the state table as
specified: for CREATE the start state equals the transient state (both
`creating`), and the union of the declared flow states over all four
operations covers every provider-reported status, so it is not a strict
subset of the full status set. -/
theorem state_table_invariant_counterexample :
    (volume_state_table VolumeOperations.create).start_state =
      (volume_state_table VolumeOperations.create).transient_state ∧
    ∀ s ∈ allVolumeStates, s ∈ flowUnionStates := by decide

/-- C9 (amended): for every operation, the start state differs from the end
state and the transient state differs from the end state (for CREATE, start
and transient coincide, both `creating`; the other three operations also have
start distinct from transient); and per operation the declared
`{start, transient, end}` set is a strict subset of the provider-reported
statuses, so for every operation at least one status lies outside its flow. -/
theorem state_table_invariant_amended (op : VolumeOperations) :
    (volume_state_table op).start_state ≠ (volume_state_table op).end_state ∧
    (volume_state_table op).transient_state ≠
      (volume_state_table op).end_state ∧
    (op ≠ VolumeOperations.create →
      (volume_state_table op).start_state ≠
        (volume_state_table op).transient_state) ∧
    ∃ s ∈ allVolumeStates, s ∉ flowStates op := by
  cases op <;> decide

theorem state_table_invariant_amended_witness :
    (volume_state_table VolumeOperations.destroy).start_state ≠
      (volume_state_table VolumeOperations.destroy).transient_state :=
  (state_table_invariant_amended VolumeOperations.destroy).2.2.1 (by decide)

/-- C10: Every failure of `_wait_for_volume_state_change` at its public
interface (called with a volume in the declared start state) — an out-of-flow
status, a volume stuck past the deadline, and an end state reached with
missing or malformed attach data — is raised as the single exception class
`TimeoutException`: the invalid-state and timeout failures are distinct
values, yet a caller cannot distinguish them by exception type alone. -/
theorem failures_raise_timeout_exception (op : VolumeOperations)
    (v : EbsVolume) (refresh : Nat → EbsVolume) (timeout : Nat)
    (e : PollError)
    (hstart : v.status = (volume_state_table op).start_state)
    (herr : _wait_for_volume_state_change op v refresh timeout = .error e) :
    raisedExceptionClass e = ExceptionClass.timeoutException ∧
    (∀ s, raisedExceptionClass (PollError.invalidState s) =
      raisedExceptionClass PollError.timedOut) ∧
    (∀ s, PollError.invalidState s ≠ PollError.timedOut) := by
  refine ⟨?_, fun s => rfl, fun s => by simp⟩
  have hne : e ≠ .fatal := by
    intro he
    subst he
    unfold _wait_for_volume_state_change at herr
    rw [if_pos hstart] at herr
    exact waitLoop_ne_fatal op refresh timeout 0 herr
  cases e with
  | fatal => exact absurd rfl hne
  | invalidState s => rfl
  | timedOut => rfl

theorem failures_raise_timeout_exception_witness :
    raisedExceptionClass (PollError.invalidState VolumeStates.inUse) =
      ExceptionClass.timeoutException :=
  (failures_raise_timeout_exception VolumeOperations.create
    (templateVolume VolumeOperations.create) (fun _ => outOfFlowVolume) 5
    (PollError.invalidState VolumeStates.inUse) rfl rfl).1
